import Mathlib

/-
Verification development for the Stk_Dash client-side dashboard code
(`static/js/main.js` and `static/js/charts.js`).

The JavaScript is shallowly embedded: JS numbers are modelled as exact
rationals (`ℚ`) plus the special values `NaN`, `+Infinity`, `-Infinity`;
strings are Lean `String`s manipulated through their character lists; the
DOM slots touched by the code are explicit record fields; the process-wide
`window.charts` registry is an association list together with an event
trace recording `destroy`/`new Chart` calls.  External host behaviour
(fetch outcomes, canvas availability, `Chart` construction success,
`toLocaleString` date formatting) is passed in as explicit parameters so
that every control path of the source is represented.
-/

namespace StkDash

/-! ### Basic JavaScript string helpers -/

/-- White-space characters recognised when trimming / skipping input
(the common subset of the ECMAScript white-space set that matters here). -/
def isJsSpace (c : Char) : Bool :=
  c = ' ' || c = '\t' || c = '\n' || c = '\r'

/-- Model of `String.prototype.trim`: strip leading and trailing white space. -/
def jsTrim (s : String) : String :=
  ⟨((s.data.dropWhile isJsSpace).reverse.dropWhile isJsSpace).reverse⟩

/-- Remove the first occurrence of character `c`, if any
(model of `s.replace("%", "")` for a one-character pattern). -/
def removeFirstOcc (c : Char) : List Char → List Char
  | [] => []
  | x :: t => if x = c then t else x :: removeFirstOcc c t

/-- Model of `val.replace("%", "")`: drop the first `%` of the string. -/
def removeFirstPercent (s : String) : String :=
  ⟨removeFirstOcc '%' s.data⟩

/-- Model of `s.startsWith('-')`: the first character is a dash. -/
def startsWithDash (s : String) : Bool :=
  match s.data with
  | '-' :: _ => true
  | _ => false

/-! ### JavaScript numbers

JS numbers are IEEE doubles; here finite values are modelled exactly as
rationals, with `NaN` and the two infinities kept as explicit
constructors so that `parseFloat`/`isNaN`/`toFixed` keep their shape. -/

inductive JSNumber where
  | fin (q : ℚ)
  | posInf
  | negInf
  | nan
  deriving DecidableEq

/-- The `val` argument of `formatSignedValue` is either a number or a string. -/
inductive JSValue where
  | num (n : JSNumber)
  | str (s : String)
  deriving DecidableEq

/-- Value of a run of decimal digit characters. -/
def digitsToNat (l : List Char) : ℕ :=
  l.foldl (fun a c => 10 * a + (c.toNat - '0'.toNat)) 0

/-- Model of ECMAScript `parseFloat`: skip leading white space, read an
optional sign, then the longest prefix that is `Infinity` or a decimal
literal (`digits [. digits]` or `. digits`) with an optional exponent
whose digit run must be non-empty to count.  Anything else yields `NaN`;
trailing garbage is ignored. -/
def parseFloat (s : String) : JSNumber :=
  let l := s.data.dropWhile isJsSpace
  let (neg, l1) : Bool × List Char :=
    match l with
    | '-' :: t => (true, t)
    | '+' :: t => (false, t)
    | t => (false, t)
  if ("Infinity".data).isPrefixOf l1 then
    (if neg then JSNumber.negInf else JSNumber.posInf)
  else
    let ip := l1.takeWhile Char.isDigit
    let r1 := l1.dropWhile Char.isDigit
    let (fp, r2) : List Char × List Char :=
      match r1 with
      | '.' :: t => (t.takeWhile Char.isDigit, t.dropWhile Char.isDigit)
      | _ => ([], r1)
    if ip = [] ∧ fp = [] then JSNumber.nan
    else
      let mant : ℚ := (digitsToNat ip : ℚ) + (digitsToNat fp : ℚ) / 10 ^ fp.length
      let expVal : ℤ :=
        match r2 with
        | c :: t =>
          if c = 'e' ∨ c = 'E' then
            match t with
            | '-' :: u =>
              let ds := u.takeWhile Char.isDigit
              if ds = [] then 0 else -(digitsToNat ds : ℤ)
            | '+' :: u =>
              let ds := u.takeWhile Char.isDigit
              if ds = [] then 0 else (digitsToNat ds : ℤ)
            | u =>
              let ds := u.takeWhile Char.isDigit
              if ds = [] then 0 else (digitsToNat ds : ℤ)
          else 0
        | [] => 0
      let v : ℚ := mant * (10 : ℚ) ^ expVal
      JSNumber.fin (if neg then -v else v)

/-! ### Decimal rendering (`Number.prototype.toFixed`) -/

/-- Decimal digit characters of `n`, most significant first. -/
def natDigits (n : ℕ) : List Char :=
  if _h : n < 10 then [Nat.digitChar n]
  else natDigits (n / 10) ++ [Nat.digitChar (n % 10)]
  termination_by n
  decreasing_by exact Nat.div_lt_self (by omega) (by omega)

/-- Decimal rendering of a natural number. -/
def natStr (n : ℕ) : String := ⟨natDigits n⟩

/-- The last `d` decimal digits of `n`, zero-padded to exactly `d` characters
(the fractional part of a `toFixed` rendering of the scaled integer `n`). -/
def fracChars : ℕ → ℕ → List Char
  | _, 0 => []
  | n, d + 1 => fracChars (n / 10) d ++ [Nat.digitChar (n % 10)]

/-- Rendering of `toFixed` for a non-negative rational: round `y` to `d` decimal places
(ties away from zero, as the ECMAScript spec picks the larger candidate)
and render with exactly `d` digits after the point (no point when `d = 0`). -/
def toFixedPos (y : ℚ) (d : ℕ) : String :=
  let n : ℕ := (⌊y * (10 : ℚ) ^ d + 1 / 2⌋).toNat
  if d = 0 then natStr n
  else natStr (n / 10 ^ d) ++ "." ++ ⟨fracChars n d⟩

/-- Model of `num.toFixed(d)`: sign of the number followed by the fixed
rendering of its absolute value; special values render as their names. -/
def jsToFixed : JSNumber → ℕ → String
  | .fin q, d => (if q < 0 then "-" else "") ++ toFixedPos |q| d
  | .posInf, _ => "Infinity"
  | .negInf, _ => "-Infinity"
  | .nan, _ => "NaN"

/-- Model of `isNaN` on an already-converted number. -/
def jsIsNaN : JSNumber → Bool
  | .nan => true
  | _ => false

/-- Model of `num >= 0`. -/
def jsNonNeg : JSNumber → Bool
  | .fin q => decide (0 ≤ q)
  | .posInf => true
  | .negInf => false
  | .nan => false

/-- Model of `formatSignedValue` from `main.js`:

```js
const formatSignedValue = (val, digits = 2, isPercent = false) => {
  const num = typeof val === "string" ? parseFloat(val.replace("%", "")) : val;
  if (isNaN(num)) return isPercent ? "+0.00%" : "+0.00";
  return `${num >= 0 ? "+" : ""}${num.toFixed(digits)}${isPercent ? "%" : ""}`;
};
``` -/
def formatSignedValue (val : JSValue) (digits : ℕ) (isPercent : Bool) : String :=
  let num : JSNumber :=
    match val with
    | .str s => parseFloat (removeFirstPercent s)
    | .num n => n
  if jsIsNaN num then (if isPercent then "+0.00%" else "+0.00")
  else
    (if jsNonNeg num then "+" else "") ++ jsToFixed num digits
      ++ (if isPercent then "%" else "")

/-! ### Article cards (`loadFmpArticles` in `main.js`)

An `Article` is one record of the `/api/fmp_articles` payload.  Optional
JSON fields are `Option String`; an empty string is JS-falsy, which the
definitions below test explicitly where the source uses `||` / `?:`. -/

structure Article where
  title : String
  date : Option String
  content : Option String
  image : Option String
  link : String
  author : Option String
  site : Option String
  deriving DecidableEq

/-- JS truthiness of an optional string: present and non-empty. -/
def truthyStr : Option String → Bool
  | some s => s ≠ ""
  | none => false

/-- Model of `opt || dflt` on an optional string field. -/
def orElseStr (opt : Option String) (dflt : String) : String :=
  match opt with
  | some s => if s = "" then dflt else s
  | none => dflt

/-- First index at which `pat` occurs as a contiguous sub-list of `l`
(model of `String.prototype.indexOf`, with `none` standing for `-1`). -/
def subFirstIdx (pat : List Char) : List Char → Option ℕ
  | [] => if pat.isPrefixOf ([] : List Char) then some 0 else none
  | c :: t =>
    if pat.isPrefixOf (c :: t) then some 0
    else (subFirstIdx pat t).map (· + 1)

/-- The snippet computation of `loadFmpArticles`:

```js
let rawHtml = article.content || '';
let firstParagraph = rawHtml;
const closingP = rawHtml.indexOf('</p>');
if (closingP > 0) {
    firstParagraph = rawHtml.slice(0, closingP + 4);
}
```

Note the guard is `closingP > 0`, not `closingP >= 0`. -/
def snippetOf (content : String) : String :=
  match subFirstIdx "</p>".data content.data with
  | some i => if 0 < i then ⟨content.data.take (i + 4)⟩ else content
  | none => content

/-- The rendered pieces of one `fmp-article-card` element. -/
structure Card where
  imageSrc : String
  imageAlt : String
  dateText : String
  authorText : String
  headlineLink : String
  headlineTitle : String
  snippet : String
  readMoreLink : String
  deriving DecidableEq

/-- Build one article card, following the DOM construction in
`loadFmpArticles` step by step.  `fmtDate` stands for the host's
`new Date(d).toLocaleString('en-US', …)` formatting, which is
locale/host behaviour outside the embedded program. -/
def buildCard (fmtDate : String → String) (a : Article) : Card :=
  { imageSrc := orElseStr a.image "/static/images/placeholder.png"
    imageAlt := orElseStr a.site "FMP" ++ " logo"
    dateText := if truthyStr a.date then fmtDate (a.date.getD "") else ""
    authorText := if truthyStr a.author then a.author.getD "" else ""
    headlineLink := a.link
    headlineTitle := a.title
    snippet := snippetOf (orElseStr a.content "")
    readMoreLink := a.link }

/-- The parsed payload: either not an array at all, or a list of articles. -/
inductive ArticlesPayload where
  | notArray
  | arr (l : List Article)

/-- Outcome of the `/api/fmp_articles` fetch as seen by the function:
a rejected promise (network failure or JSON parse failure), or a parsed
payload together with `response.ok`. -/
inductive ArticlesFetch where
  | reject
  | response (ok : Bool) (payload : ArticlesPayload)

/-- Final contents of `#fmp-articles-container` after `loadFmpArticles`:
a single message paragraph, or the list of appended cards (in order). -/
inductive FmpContainer where
  | message (s : String)
  | cards (cs : List Card)
  deriving DecidableEq

/-- Model of `loadFmpArticles` from `main.js`, as a map from the fetch outcome to the
final container contents (the container exists in the page template; the
transient loading placeholder is overwritten on every path). -/
def loadFmpArticles (fmtDate : String → String) (fetch : ArticlesFetch) :
    FmpContainer :=
  match fetch with
  | .reject => .message "Failed to load FMP articles."
  | .response ok payload =>
    if ok = false then .message "Failed to load FMP articles."
    else
      match payload with
      | .notArray => .message "No FMP articles available."
      | .arr l =>
        if l.isEmpty then .message "No FMP articles available."
        else .cards (l.map (buildCard fmtDate))

/-! ### Chart renderer (`renderChart` in `charts.js`)

The `data` and `labels` arguments come straight from a JSON payload, so
they may fail to be arrays; `nullish` stands for the JS-falsy non-array
values (`undefined` / `null`) that the code guards against with
`Array.isArray` and `data && …`. -/

inductive DataArg where
  | arr (l : List ℚ)
  | nullish
  deriving DecidableEq

inductive LabelsArg where
  | arr (l : List String)
  | nullish
  deriving DecidableEq

/-- The parts of the Chart.js configuration object that the source
computes from its arguments (cosmetic constants are omitted). -/
structure ChartCfg where
  labels : List String
  data : List ℚ
  borderColor : String
  pointRadius : ℚ
  deriving DecidableEq

/-- The config built by `renderChart`:

```js
labels: Array.isArray(labels) ? labels : [],
data: Array.isArray(data) ? data : [],
borderColor: lineColor,
pointRadius: (data && data.length < 10) ? 2 : 0,
```

For a falsy `data`, `data && …` short-circuits to `data`, so the ternary
takes its else branch and the radius is `0`. -/
def buildCfg (data : DataArg) (labels : LabelsArg) (lineColor : String) :
    ChartCfg :=
  { labels := match labels with | .arr l => l | .nullish => []
    data := match data with | .arr l => l | .nullish => []
    borderColor := lineColor
    pointRadius :=
      match data with
      | .arr l => if l.length < 10 then 2 else 0
      | .nullish => 0 }

/-- A live Chart.js instance: its creation serial number and its config. -/
structure ChartInst where
  id : ℕ
  cfg : ChartCfg
  deriving DecidableEq

/-- Instrumentation events: each `chart.destroy()` call and each
successful `new Chart(…)` construction, in program order. -/
inductive ChartEvent where
  | destroy (id : ℕ)
  | create (id : ℕ)
  deriving DecidableEq

/-- The process-wide `window.charts` registry plus the event trace.
A registry entry `(cid, none)` is the explicit `null` the source writes
after destroying an instance; an absent key models an untouched canvas. -/
structure ChartState where
  registry : List (String × Option ChartInst)
  events : List ChartEvent
  nextId : ℕ
  deriving DecidableEq

/-- Lookup of `window.charts[canvasId]` (first matching key). -/
def lookupReg (reg : List (String × Option ChartInst)) (cid : String) :
    Option (Option ChartInst) :=
  match reg with
  | [] => none
  | (k, v) :: t => if k = cid then some v else lookupReg t cid

/-- Model of `window.charts[canvasId] = v`: overwrite the existing entry or add one. -/
def setReg (reg : List (String × Option ChartInst)) (cid : String)
    (v : Option ChartInst) : List (String × Option ChartInst) :=
  match reg with
  | [] => [(cid, v)]
  | (k, w) :: t => if k = cid then (cid, v) :: t else (k, w) :: setReg t cid v

/-- Number of registry entries stored under `cid`. -/
def countReg (reg : List (String × Option ChartInst)) (cid : String) : ℕ :=
  (reg.filter (fun p => p.1 = cid)).length

/-- Model of `renderChart` from `charts.js`.  `canvasOk` is whether
`document.getElementById(canvasId)` finds a canvas with a 2D context
(both absence checks log and return); `buildOk` is whether
`new Chart(ctx, cfg)` succeeds — its failure is caught and logged, so the
call never throws.  Step (b) destroys a registered live instance and
writes `null` over it; step (e) registers the replacement. -/
def renderChart (st : ChartState) (canvasId : String) (canvasOk : Bool)
    (buildOk : Bool) (data : DataArg) (labels : LabelsArg)
    (lineColor : String) : ChartState :=
  if canvasOk = false then st
  else
    let st1 : ChartState :=
      match lookupReg st.registry canvasId with
      | some (some inst) =>
        { st with
          registry := setReg st.registry canvasId none
          events := st.events ++ [ChartEvent.destroy inst.id] }
      | _ => st
    if buildOk then
      { st1 with
        registry :=
          setReg st1.registry canvasId
            (some ⟨st1.nextId, buildCfg data labels lineColor⟩)
        events := st1.events ++ [ChartEvent.create st1.nextId]
        nextId := st1.nextId + 1 }
    else st1

/-! ### Performance controller (`loadPerformanceDataAndRenderCharts`) -/

/-- One metric object of the `/api/performance_charts` payload.  `value`
and `change` arrive as arbitrary JSON scalars (the backend sends strings
such as `"-5.00%"`); `values`/`dates` may be missing or malformed, which
`DataArg`/`LabelsArg` capture. -/
structure Metric where
  value : JSValue
  change : JSValue
  dates : LabelsArg
  values : DataArg
  deriving DecidableEq

/-- The parsed performance payload.  A metric field that is JSON `null`
or absent is `none` (both are falsy, so both take the `|| fallback`
branch in the source). -/
structure PerfPayload where
  error : Option String
  relative_performance : Option Metric
  moving_z_score : Option Metric
  alpha : Option Metric
  cumulative_alpha : Option Metric

/-- Outcome of the performance fetch: a rejected promise (network failure
or JSON parse failure) or a parsed payload with `response.ok`. -/
inductive PerfFetchResult where
  | reject
  | response (ok : Bool) (payload : PerfPayload)

/-- The `try`/`catch` head of `loadPerformanceDataAndRenderCharts`:

```js
try {
  const response = await fetch(…);
  if (!response.ok) throw new Error(`HTTP ${response.status}`);
  apiData = await response.json();
  if (apiData.error) { console.error(…); apiData = null; }
} catch (error) { console.error(…); apiData = null; }
```

Every failure is caught and leaves `apiData = null` (`none`). -/
def tryFetchPerf : PerfFetchResult → Option PerfPayload
  | .reject => none
  | .response ok payload =>
    if ok = false then none
    else if truthyStr payload.error then none
    else some payload

/-- The zero-valued fallback `{ value: 0, change: 0, dates: [], values: [] }`. -/
def fallbackMetric : Metric :=
  { value := .num (.fin 0)
    change := .num (.fin 0)
    dates := .arr []
    values := .arr [] }

/-- The text slots and the `positive`/`negative` classes of one chart card
(the value `<span>`, the change `<span>` and its parent container). -/
structure CardText where
  valueText : String
  changeText : String
  positive : Bool
  negative : Bool
  deriving DecidableEq

/-- Model of `updateChartCardTextOnly` from `main.js`: write the trimmed value and
change strings, then remove both classes and add `negative` when the
(untrimmed) change string starts with `'-'`, `positive` otherwise.  The
four slot elements exist in the page template. -/
def updateChartCardTextOnly (card : CardText) (valueStr changeStr : String) :
    CardText :=
  { card with
    valueText := jsTrim valueStr
    changeText := jsTrim changeStr
    negative := startsWithDash changeStr
    positive := !startsWithDash changeStr }

/-- The four chart cards of the dashboard. -/
structure PerfDom where
  rp : CardText
  zscore : CardText
  alpha : CardText
  cumAlpha : CardText
  deriving DecidableEq

/-- The page state the controller touches: the card texts/classes, the
shared `window.currentTicker`, and the chart registry. -/
structure PageState where
  dom : PerfDom
  currentTicker : Option String
  charts : ChartState
  deriving DecidableEq

/-- Model of `loadPerformanceDataAndRenderCharts` from `main.js`.  `canvasOk` and
`buildOk` describe, per canvas id, whether the canvas is drawable and
whether `new Chart` succeeds; both kinds of failure are handled inside
`renderChart`, and the fetch failure inside `tryFetchPerf`, so this
function is total: no exception escapes the call. -/
def loadPerformanceDataAndRenderCharts (fetch : PerfFetchResult)
    (ticker : String) (canvasOk buildOk : String → Bool) (st : PageState) :
    PageState :=
  let apiData := tryFetchPerf fetch
  let rpData := (apiData.bind (·.relative_performance)).getD fallbackMetric
  let zData := (apiData.bind (·.moving_z_score)).getD fallbackMetric
  let aData := (apiData.bind (·.alpha)).getD fallbackMetric
  let caData := (apiData.bind (·.cumulative_alpha)).getD fallbackMetric
  let rpVal := formatSignedValue rpData.value 2 true
  let rpChg := formatSignedValue rpData.change 2 true
  let zVal := formatSignedValue zData.value 2 false
  let zChg := formatSignedValue zData.change 2 false
  let aVal := formatSignedValue aData.value 3 false
  let aChg := formatSignedValue aData.change 3 false
  let caVal := formatSignedValue caData.value 2 false
  let caChg := formatSignedValue caData.change 2 false
  let dom : PerfDom :=
    { rp := updateChartCardTextOnly st.dom.rp rpVal rpChg
      zscore := updateChartCardTextOnly st.dom.zscore zVal zChg
      alpha := updateChartCardTextOnly st.dom.alpha aVal aChg
      cumAlpha := updateChartCardTextOnly st.dom.cumAlpha caVal caChg }
  let render := fun (s : ChartState) (cid : String) (m : Metric) (col : String) =>
    renderChart s cid (canvasOk cid) (buildOk cid) m.values m.dates col
  let c1 := render st.charts "relativePerformanceChart" rpData "#1E90FF"
  let c2 := render c1 "movingZScoreChart" zData "#FFA500"
  let c3 := render c2 "alphaChart" aData "#32CD32"
  let c4 := render c3 "cumulativeAlphaChart" caData "#9370DB"
  { dom := dom, currentTicker := some ticker, charts := c4 }

/-- A blank chart card as produced by the page template (no text, no
sign classes). -/
def emptyCard : CardText := ⟨"", "", false, false⟩

/-- Page state at `DOMContentLoaded`: blank cards, no ticker, empty registry. -/
def initPage : PageState :=
  ⟨⟨emptyCard, emptyCard, emptyCard, emptyCard⟩, none, ⟨[], [], 0⟩⟩

/-! ### Auxiliary notions used by the claim statements -/

/-- The closing-paragraph boundary `"</p>"` as a character list. -/
def closingTag : List Char := "</p>".data

/-- Holds when `pat` occurs as a contiguous sub-list of `l` at index `i`. -/
abbrev occursAt (pat l : List Char) (i : ℕ) : Prop :=
  pat.isPrefixOf (l.drop i) = true

/-- A string is an unsigned number fixed to `d` decimal places: a
non-empty run of digits when `d = 0`, otherwise a non-empty digit run,
a decimal point, and exactly `d` digits. -/
def bodyFixed (body : String) (d : ℕ) : Prop :=
  if d = 0 then body.data ≠ [] ∧ ∀ c ∈ body.data, c.isDigit = true
  else ∃ pre post : List Char,
    body.data = pre ++ '.' :: post ∧ pre ≠ []
    ∧ (∀ c ∈ pre, c.isDigit = true) ∧ post.length = d
    ∧ (∀ c ∈ post, c.isDigit = true)

/-- A concrete article used by witnesses: it has an empty `image` field. -/
def sampleArticle : Article :=
  { title := "Title"
    date := none
    content := some "<p>Hi</p>rest"
    image := some ""
    link := "https://example.com/a"
    author := none
    site := none }

/-- The concrete performance payload of claim C3: only
`relative_performance` is present, with value `"-5.00%"` and change
`"+1.00%"`. -/
def payloadC3 : PerfPayload :=
  { error := none
    relative_performance := some
      { value := .str "-5.00%"
        change := .str "+1.00%"
        dates := .arr ["Jan"]
        values := .arr [-5] }
    moving_z_score := none
    alpha := none
    cumulative_alpha := none }

/-- The page state after running the controller on the C3 payload. -/
def runC3 : PageState :=
  loadPerformanceDataAndRenderCharts (.response true payloadC3) "IBM"
    (fun _ => true) (fun _ => true) initPage

/-! ### Registry lemmas -/

theorem lookupReg_setReg_self (reg : List (String × Option ChartInst))
    (cid : String) (v : Option ChartInst) :
    lookupReg (setReg reg cid v) cid = some v := by
  induction reg with
  | nil => simp [setReg, lookupReg]
  | cons p t ih =>
    obtain ⟨k, w⟩ := p
    by_cases hk : k = cid
    · simp [setReg, lookupReg, hk]
    · simp [setReg, lookupReg, hk, ih]

theorem lookupReg_of_notMem (reg : List (String × Option ChartInst))
    (cid : String) (h : ∀ p ∈ reg, p.1 ≠ cid) :
    lookupReg reg cid = none := by
  induction reg with
  | nil => simp [lookupReg]
  | cons p t ih =>
    obtain ⟨k, w⟩ := p
    have hk : k ≠ cid := h (k, w) (List.mem_cons_self _ _)
    simp only [lookupReg, if_neg hk]
    exact ih (fun q hq => h q (List.mem_cons_of_mem _ hq))

theorem setReg_of_notMem (reg : List (String × Option ChartInst))
    (cid : String) (v : Option ChartInst) (h : ∀ p ∈ reg, p.1 ≠ cid) :
    setReg reg cid v = reg ++ [(cid, v)] := by
  induction reg with
  | nil => simp [setReg]
  | cons p t ih =>
    obtain ⟨k, w⟩ := p
    have hk : k ≠ cid := h (k, w) (List.mem_cons_self _ _)
    simp only [setReg, if_neg hk, List.cons_append, List.cons.injEq, true_and]
    exact ih (fun q hq => h q (List.mem_cons_of_mem _ hq))

theorem setReg_append (reg : List (String × Option ChartInst)) (cid : String)
    (a v : Option ChartInst) (h : ∀ p ∈ reg, p.1 ≠ cid) :
    setReg (reg ++ [(cid, a)]) cid v = reg ++ [(cid, v)] := by
  induction reg with
  | nil => simp [setReg]
  | cons p t ih =>
    obtain ⟨k, w⟩ := p
    have hk : k ≠ cid := h (k, w) (List.mem_cons_self _ _)
    simp only [List.cons_append, setReg, if_neg hk, List.cons.injEq, true_and]
    exact ih (fun q hq => h q (List.mem_cons_of_mem _ hq))

theorem lookupReg_append (reg : List (String × Option ChartInst))
    (cid : String) (v : Option ChartInst) (h : ∀ p ∈ reg, p.1 ≠ cid) :
    lookupReg (reg ++ [(cid, v)]) cid = some v := by
  induction reg with
  | nil => simp [lookupReg]
  | cons p t ih =>
    obtain ⟨k, w⟩ := p
    have hk : k ≠ cid := h (k, w) (List.mem_cons_self _ _)
    simp only [List.cons_append, lookupReg, if_neg hk]
    exact ih (fun q hq => h q (List.mem_cons_of_mem _ hq))

theorem countReg_append (reg : List (String × Option ChartInst))
    (cid : String) (v : Option ChartInst) (h : ∀ p ∈ reg, p.1 ≠ cid) :
    countReg (reg ++ [(cid, v)]) cid = 1 := by
  induction reg with
  | nil => simp [countReg]
  | cons p t ih =>
    obtain ⟨k, w⟩ := p
    have hk : k ≠ cid := h (k, w) (List.mem_cons_self _ _)
    have ht := ih (fun q hq => h q (List.mem_cons_of_mem _ hq))
    simpa [countReg, hk] using ht

/-! ### Claim theorems for the chart renderer -/

/-- Claim C8: when no drawable surface exists at `canvasId` (the canvas
element or its 2D context is missing), `renderChart` logs and returns
without any effect: the registry, the event trace and the rest of the
state are unchanged, and being a total function, no exception
propagates.  (The log message itself is outside the model.) -/
theorem renderChart_missing_canvas (st : ChartState) (cid : String)
    (buildOk : Bool) (d : DataArg) (l : LabelsArg) (col : String) :
    renderChart st cid false buildOk d l col = st := by
  simp [renderChart]

/-- Claim C4: with a drawable surface and successful chart construction,
calling `renderChart` twice for the same previously-unregistered canvas
leaves exactly one registry entry for it — the second instance — and the
trace of the two calls is `create(first)`, `destroy(first)`,
`create(second)`: the first call's instance is destroyed exactly once,
before the second instance is constructed. -/
theorem renderChart_twice_single_instance (st : ChartState) (cid : String)
    (d1 d2 : DataArg) (l1 l2 : LabelsArg) (col1 col2 : String)
    (hfresh : ∀ p ∈ st.registry, p.1 ≠ cid) (hev : st.events = []) :
    countReg (renderChart (renderChart st cid true true d1 l1 col1) cid true
        true d2 l2 col2).registry cid = 1
    ∧ lookupReg (renderChart (renderChart st cid true true d1 l1 col1) cid
        true true d2 l2 col2).registry cid
      = some (some ⟨st.nextId + 1, buildCfg d2 l2 col2⟩)
    ∧ (renderChart (renderChart st cid true true d1 l1 col1) cid true true
        d2 l2 col2).events
      = [ChartEvent.create st.nextId, ChartEvent.destroy st.nextId,
         ChartEvent.create (st.nextId + 1)] := by
  have h0 : lookupReg st.registry cid = none :=
    lookupReg_of_notMem st.registry cid hfresh
  have hset1 : setReg st.registry cid (some ⟨st.nextId, buildCfg d1 l1 col1⟩)
      = st.registry ++ [(cid, some ⟨st.nextId, buildCfg d1 l1 col1⟩)] :=
    setReg_of_notMem _ _ _ hfresh
  have hst1 : renderChart st cid true true d1 l1 col1
      = { registry := st.registry ++ [(cid, some ⟨st.nextId, buildCfg d1 l1 col1⟩)]
          events := st.events ++ [ChartEvent.create st.nextId]
          nextId := st.nextId + 1 } := by
    simp [renderChart, h0, hset1]
  have hlook1 : lookupReg
      (st.registry ++ [(cid, some ⟨st.nextId, buildCfg d1 l1 col1⟩)]) cid
      = some (some ⟨st.nextId, buildCfg d1 l1 col1⟩) :=
    lookupReg_append _ _ _ hfresh
  have hset2 : setReg
      (st.registry ++ [(cid, some ⟨st.nextId, buildCfg d1 l1 col1⟩)]) cid none
      = st.registry ++ [(cid, none)] := setReg_append _ _ _ _ hfresh
  have hset3 : setReg (st.registry ++ [(cid, none)]) cid
      (some ⟨st.nextId + 1, buildCfg d2 l2 col2⟩)
      = st.registry ++ [(cid, some ⟨st.nextId + 1, buildCfg d2 l2 col2⟩)] :=
    setReg_append _ _ _ _ hfresh
  have hst2 : renderChart (renderChart st cid true true d1 l1 col1) cid true
      true d2 l2 col2
      = { registry := st.registry
            ++ [(cid, some ⟨st.nextId + 1, buildCfg d2 l2 col2⟩)]
          events := ((st.events ++ [ChartEvent.create st.nextId])
            ++ [ChartEvent.destroy st.nextId])
            ++ [ChartEvent.create (st.nextId + 1)]
          nextId := st.nextId + 2 } := by
    rw [hst1]
    simp [renderChart, hlook1, hset2, hset3]
  rw [hst2]
  refine ⟨countReg_append _ _ _ hfresh, lookupReg_append _ _ _ hfresh, ?_⟩
  simp [hev]

/-- Witness for C4 at a concrete state: an empty registry, two renders of
`relativePerformanceChart`. -/
theorem renderChart_twice_single_instance_witness :
    countReg (renderChart (renderChart ⟨[], [], 0⟩ "relativePerformanceChart"
        true true (.arr [1]) (.arr ["Jan"]) "#1E90FF")
        "relativePerformanceChart" true true (.arr [2]) (.arr ["Feb"])
        "#1E90FF").registry "relativePerformanceChart" = 1
    ∧ (renderChart (renderChart ⟨[], [], 0⟩ "relativePerformanceChart" true
        true (.arr [1]) (.arr ["Jan"]) "#1E90FF") "relativePerformanceChart"
        true true (.arr [2]) (.arr ["Feb"]) "#1E90FF").events
      = [ChartEvent.create 0, ChartEvent.destroy 0, ChartEvent.create 1] := by
  have h := renderChart_twice_single_instance ⟨[], [], 0⟩
    "relativePerformanceChart" (.arr [1]) (.arr [2]) (.arr ["Jan"])
    (.arr ["Feb"]) "#1E90FF" "#1E90FF" (by simp) rfl
  exact ⟨h.1, h.2.2⟩

/-- Claim C10: when a live instance is registered under `canvasId` and the
replacement's `new Chart` throws, the prior instance has already been
destroyed and the registry entry is left as the explicit `null` written
in step (b); the prior chart is not restored. -/
theorem renderChart_failed_replacement (st : ChartState) (cid : String)
    (inst : ChartInst) (d : DataArg) (l : LabelsArg) (col : String)
    (h : lookupReg st.registry cid = some (some inst)) :
    lookupReg (renderChart st cid true false d l col).registry cid = some none
    ∧ (renderChart st cid true false d l col).events
      = st.events ++ [ChartEvent.destroy inst.id] := by
  simp only [renderChart, h, Bool.false_eq_true, if_false, if_neg]
  exact ⟨lookupReg_setReg_self _ _ _, rfl⟩

/-- Witness for C10: one registered instance, a failing rebuild. -/
theorem renderChart_failed_replacement_witness :
    lookupReg (renderChart ⟨[("alphaChart", some ⟨7, buildCfg (.arr [])
        (.arr []) "#32CD32"⟩)], [], 8⟩ "alphaChart" true false (.arr [1])
        (.arr ["Jan"]) "#32CD32").registry "alphaChart" = some none
    ∧ (renderChart ⟨[("alphaChart", some ⟨7, buildCfg (.arr []) (.arr [])
        "#32CD32"⟩)], [], 8⟩ "alphaChart" true false (.arr [1])
        (.arr ["Jan"]) "#32CD32").events = [ChartEvent.destroy 7] :=
  renderChart_failed_replacement ⟨[("alphaChart", some ⟨7, buildCfg (.arr [])
    (.arr []) "#32CD32"⟩)], [], 8⟩ "alphaChart" ⟨7, buildCfg (.arr [])
    (.arr []) "#32CD32"⟩ (.arr [1]) (.arr ["Jan"]) "#32CD32" (by
      with_unfolding_all decide)

/-! ### Claim theorems for the chart configuration (C7) -/

/-- Claim C7 counterexample: for a non-array `data` argument the dataset
series defaults to the empty sequence (length `0 < 10`), yet the point
radius is `0` — markers are absent although the series length is below
ten, so "no point markers exactly when the series length is ≥ 10" fails. -/
theorem buildCfg_counterexample :
    ¬ ((buildCfg DataArg.nullish (LabelsArg.arr ["Jan"]) "#1E90FF").pointRadius
          = 0
        ↔ 10 ≤ (buildCfg DataArg.nullish (LabelsArg.arr ["Jan"])
            "#1E90FF").data.length) := by
  with_unfolding_all decide

/-- Claim C7 (amended): the configuration uses the `data` array
(defaulting to the empty sequence when `data` is not an array) and the
`labels` sequence (defaulting to empty), and when `data` is an array the
point markers vanish exactly for length ≥ 10 (radius 2 otherwise); when
`data` is not an array the point radius is 0 even though the rendered
series is empty. -/
theorem buildCfg_spec (data : DataArg) (labels : LabelsArg) (color : String) :
    (buildCfg data labels color).data
      = (match data with | .arr l => l | .nullish => [])
    ∧ (buildCfg data labels color).labels
      = (match labels with | .arr l => l | .nullish => [])
    ∧ (buildCfg data labels color).borderColor = color
    ∧ (∀ l : List ℚ, data = .arr l →
        ((buildCfg data labels color).pointRadius = 0 ↔ 10 ≤ l.length))
    ∧ (data = .nullish → (buildCfg data labels color).pointRadius = 0) := by
  refine ⟨by cases data <;> rfl, by cases labels <;> rfl, rfl, ?_, ?_⟩
  · intro l hl
    subst hl
    show (if l.length < 10 then (2 : ℚ) else 0) = 0 ↔ 10 ≤ l.length
    rcases Nat.lt_or_ge l.length 10 with h | h
    · rw [if_pos h]
      constructor
      · intro h2
        norm_num at h2
      · intro h10
        omega
    · rw [if_neg (by omega)]
      simp [h]
  · intro h
    subst h
    rfl

/-- Witness for C7 at a concrete array argument of length 1. -/
theorem buildCfg_spec_witness :
    ((buildCfg (.arr [5]) (.arr ["Jan"]) "#FFA500").pointRadius = 0
      ↔ 10 ≤ [(5 : ℚ)].length)
    ∧ (buildCfg DataArg.nullish (.arr ["Jan"]) "#FFA500").pointRadius = 0 :=
  ⟨(buildCfg_spec (.arr [5]) (.arr ["Jan"]) "#FFA500").2.2.2.1 [5] rfl,
   (buildCfg_spec DataArg.nullish (.arr ["Jan"]) "#FFA500").2.2.2.2 rfl⟩

/-! ### Claim theorems for the article builder (C5, C6) -/

/-- Claim C5: for a successful `fmp_articles` response — a non-array or
empty payload yields the fixed "no articles" message and zero cards; a
payload of N ≥ 1 articles yields exactly the N cards built from the
articles in response order; and an article with an empty (or absent)
`image` field renders the placeholder asset path. -/
theorem loadFmpArticles_spec (fmtDate : String → String) :
    loadFmpArticles fmtDate (.response true .notArray)
      = .message "No FMP articles available."
    ∧ loadFmpArticles fmtDate (.response true (.arr []))
      = .message "No FMP articles available."
    ∧ (∀ l : List Article, l ≠ [] →
        loadFmpArticles fmtDate (.response true (.arr l))
          = .cards (l.map (buildCard fmtDate))
        ∧ (l.map (buildCard fmtDate)).length = l.length)
    ∧ (∀ a : Article, a.image = some "" →
        (buildCard fmtDate a).imageSrc = "/static/images/placeholder.png")
    ∧ (∀ a : Article, a.image = none →
        (buildCard fmtDate a).imageSrc = "/static/images/placeholder.png") := by
  refine ⟨rfl, rfl, ?_, ?_, ?_⟩
  · intro l hl
    refine ⟨?_, by simp⟩
    simp [loadFmpArticles, hl]
  · intro a ha
    simp [buildCard, orElseStr, ha]
  · intro a ha
    simp [buildCard, orElseStr, ha]

/-- Witness for C5: a one-element article list with an empty image. -/
theorem loadFmpArticles_spec_witness :
    loadFmpArticles (fun _ => "") (.response true (.arr [sampleArticle]))
      = .cards [buildCard (fun _ => "") sampleArticle]
    ∧ (buildCard (fun _ => "") sampleArticle).imageSrc
      = "/static/images/placeholder.png" :=
  ⟨((loadFmpArticles_spec (fun _ => "")).2.2.1 [sampleArticle]
      (by simp)).1,
   (loadFmpArticles_spec (fun _ => "")).2.2.2.1 sampleArticle rfl⟩

theorem subFirstIdx_some_first (pat : List Char) :
    ∀ (l : List Char) (i : ℕ), subFirstIdx pat l = some i →
      occursAt pat l i ∧ ∀ j < i, ¬ occursAt pat l j := by
  intro l
  induction l with
  | nil =>
    intro i h
    by_cases hp : pat.isPrefixOf ([] : List Char) = true
    · simp only [subFirstIdx, if_pos hp, Option.some.injEq] at h
      subst h
      exact ⟨hp, by omega⟩
    · simp only [subFirstIdx, if_neg hp] at h
      cases h
  | cons c t ih =>
    intro i h
    by_cases hp : pat.isPrefixOf (c :: t) = true
    · simp only [subFirstIdx, if_pos hp, Option.some.injEq] at h
      subst h
      exact ⟨hp, by omega⟩
    · simp only [subFirstIdx, if_neg hp, Option.map_eq_some'] at h
      obtain ⟨i', hi', rfl⟩ := h
      obtain ⟨h1, h2⟩ := ih i' hi'
      refine ⟨by simpa [occursAt] using h1, ?_⟩
      intro j hj
      cases j with
      | zero => simpa [occursAt] using hp
      | succ j' =>
        have : j' < i' := by omega
        simpa [occursAt] using h2 j' this

theorem subFirstIdx_none_no_occ (pat : List Char) :
    ∀ l : List Char, subFirstIdx pat l = none →
      ∀ j, ¬ occursAt pat l j := by
  intro l
  induction l with
  | nil =>
    intro h j
    by_cases hp : pat.isPrefixOf ([] : List Char) = true
    · simp [subFirstIdx, hp] at h
    · simpa [occursAt, List.drop_nil] using hp
  | cons c t ih =>
    intro h j
    by_cases hp : pat.isPrefixOf (c :: t) = true
    · simp [subFirstIdx, hp] at h
    · simp only [subFirstIdx, if_neg hp, Option.map_eq_none'] at h
      cases j with
      | zero => simpa [occursAt] using hp
      | succ j' => simpa [occursAt] using ih h j'

theorem first_subFirstIdx (pat : List Char) :
    ∀ (l : List Char) (i : ℕ), occursAt pat l i →
      (∀ j < i, ¬ occursAt pat l j) → subFirstIdx pat l = some i := by
  intro l
  induction l with
  | nil =>
    intro i h1 h2
    have hp : pat.isPrefixOf ([] : List Char) = true := by
      simpa [occursAt, List.drop_nil] using h1
    have hi : i = 0 := by
      by_contra hne
      exact h2 0 (by omega) (by simpa [occursAt, List.drop_nil] using hp)
    subst hi
    simp [subFirstIdx, hp]
  | cons c t ih =>
    intro i h1 h2
    by_cases hp : pat.isPrefixOf (c :: t) = true
    · have hi : i = 0 := by
        by_contra hne
        exact h2 0 (by omega) (by simpa [occursAt] using hp)
      subst hi
      simp [subFirstIdx, hp]
    · cases i with
      | zero =>
        exact absurd (by simpa [occursAt] using h1) hp
      | succ i' =>
        have h1' : occursAt pat t i' := by simpa [occursAt] using h1
        have h2' : ∀ j < i', ¬ occursAt pat t j := by
          intro j hj hocc
          exact h2 (j + 1) (by omega) (by simpa [occursAt] using hocc)
        simp [subFirstIdx, hp, ih i' h1' h2']

/-- Claim C6 counterexample: for the content `"</p>x"` the closing
boundary `</p>` exists within the content (at index 0), yet the rendered
snippet is the full content, not the content truncated at (and
including) that first `</p>`. -/
theorem snippetOf_counterexample :
    occursAt closingTag ("</p>x" : String).data 0
    ∧ snippetOf "</p>x" = "</p>x"
    ∧ snippetOf "</p>x" ≠ "</p>" := by
  refine ⟨by decide, by decide, by decide⟩

/-- Claim C6 (amended): the snippet is the content truncated at (and
including) the first `</p>` whenever that first occurrence is at a
positive index; when `</p>` does not occur, or occurs only starting at
index 0, the snippet is the full content. -/
theorem snippetOf_spec (c : String) (i : ℕ) :
    (occursAt closingTag c.data i → (∀ j < i, ¬ occursAt closingTag c.data j) →
      0 < i → snippetOf c = ⟨c.data.take (i + 4)⟩)
    ∧ (occursAt closingTag c.data 0 → snippetOf c = c)
    ∧ ((∀ j, ¬ occursAt closingTag c.data j) → snippetOf c = c) := by
  refine ⟨?_, ?_, ?_⟩
  · intro h1 h2 hi
    have hs : subFirstIdx closingTag c.data = some i :=
      first_subFirstIdx closingTag c.data i h1 h2
    unfold snippetOf
    rw [show ("</p>" : String).data = closingTag from rfl, hs]
    simp [hi]
  · intro h1
    have hs : subFirstIdx closingTag c.data = some 0 :=
      first_subFirstIdx closingTag c.data 0 h1 (by omega)
    unfold snippetOf
    rw [show ("</p>" : String).data = closingTag from rfl, hs]
    simp
  · intro hno
    have hs : subFirstIdx closingTag c.data = none := by
      cases h : subFirstIdx closingTag c.data with
      | none => rfl
      | some k =>
        exact absurd (subFirstIdx_some_first closingTag c.data k h).1 (hno k)
    unfold snippetOf
    rw [show ("</p>" : String).data = closingTag from rfl, hs]

/-- Witness for C6: `"<p>a</p>b"` has its first `</p>` at index 4, and the
snippet is the prefix of length 8, `"<p>a</p>"`. -/
theorem snippetOf_spec_witness : snippetOf "<p>a</p>b" = "<p>a</p>" := by
  have h := (snippetOf_spec "<p>a</p>b" 4).1 (by decide) (by decide)
    (by decide)
  exact h.trans (by decide)

/-! ### String and digit lemmas for the formatter -/

theorem strExt {a b : String} (h : a.data = b.data) : a = b := by
  cases a
  cases b
  cases h
  rfl

theorem strDataAppend (a b : String) : (a ++ b).data = a.data ++ b.data := rfl

theorem strEmptyAppend (s : String) : ("" : String) ++ s = s := strExt rfl

theorem digitChar_isDigit (m : ℕ) (h : m < 10) :
    (Nat.digitChar m).isDigit = true := by
  interval_cases m <;> decide

theorem natDigits_ne_nil (n : ℕ) : natDigits n ≠ [] := by
  rw [natDigits]
  split <;> simp

theorem natDigits_digits (n : ℕ) : ∀ c ∈ natDigits n, c.isDigit = true := by
  induction n using Nat.strong_induction_on with
  | _ n ih =>
    rw [natDigits]
    split
    · next h =>
      intro c hc
      simp only [List.mem_singleton] at hc
      subst hc
      exact digitChar_isDigit n h
    · next h =>
      intro c hc
      rcases List.mem_append.mp hc with hc | hc
      · exact ih (n / 10) (Nat.div_lt_self (by omega) (by omega)) c hc
      · simp only [List.mem_singleton] at hc
        subst hc
        exact digitChar_isDigit _ (Nat.mod_lt _ (by omega))

theorem fracChars_length (n d : ℕ) : (fracChars n d).length = d := by
  induction d generalizing n with
  | zero => rfl
  | succ d ih => simp [fracChars, ih]

theorem fracChars_digits (n d : ℕ) : ∀ c ∈ fracChars n d, c.isDigit = true := by
  induction d generalizing n with
  | zero =>
    intro c hc
    simp [fracChars] at hc
  | succ d ih =>
    intro c hc
    rcases List.mem_append.mp hc with hc | hc
    · exact ih (n / 10) c hc
    · simp only [List.mem_singleton] at hc
      subst hc
      exact digitChar_isDigit _ (Nat.mod_lt _ (by omega))

theorem bodyFixed_toFixedPos (y : ℚ) (d : ℕ) : bodyFixed (toFixedPos y d) d := by
  unfold bodyFixed toFixedPos
  by_cases hd : d = 0
  · subst hd
    simp only [if_pos rfl]
    exact ⟨natDigits_ne_nil _, natDigits_digits _⟩
  · simp only [if_neg hd]
    refine ⟨natDigits ((⌊y * (10 : ℚ) ^ d + 1 / 2⌋).toNat / 10 ^ d),
      fracChars (⌊y * (10 : ℚ) ^ d + 1 / 2⌋).toNat d, ?_,
      natDigits_ne_nil _, natDigits_digits _, fracChars_length _ _,
      fracChars_digits _ _⟩
    show (natStr _ ++ "." ++ (⟨fracChars _ d⟩ : String)).data = _
    simp [natStr, strDataAppend]

theorem formatSignedValue_fin (q : ℚ) (d : ℕ) (p : Bool) :
    formatSignedValue (.num (.fin q)) d p
      = (if 0 ≤ q then "+" else "")
        ++ ((if q < 0 then "-" else "") ++ toFixedPos |q| d)
        ++ (if p then "%" else "") := by
  simp [formatSignedValue, jsIsNaN, jsToFixed, jsNonNeg]

/-- Claim C1: for every finite number and every digits count, the
formatted string is the sign (`+` for non-negative, `-` for negative,
never unsigned) followed by an unsigned number fixed to `digits` decimal
places, with a `%` suffix exactly when `isPercent`; the string input
`"12.3%"` formats to `"+12.30%"`; and every string whose `%`-stripped
form does not parse to a number yields the fallback `"+0.00"` /
`"+0.00%"` rather than an error. -/
theorem formatSignedValue_spec :
    (∀ (q : ℚ) (d : ℕ) (p : Bool), ∃ body : String,
        formatSignedValue (.num (.fin q)) d p
          = (if 0 ≤ q then "+" else "-") ++ body ++ (if p then "%" else "")
        ∧ bodyFixed body d)
    ∧ formatSignedValue (.str "12.3%") 2 true = "+12.30%"
    ∧ (∀ (s : String) (d : ℕ) (p : Bool),
        parseFloat (removeFirstPercent s) = .nan →
        formatSignedValue (.str s) d p = if p then "+0.00%" else "+0.00")
    ∧ formatSignedValue (.str "not-a-number") 2 false = "+0.00"
    ∧ formatSignedValue (.str "not-a-number") 2 true = "+0.00%" := by
  refine ⟨?_, by with_unfolding_all decide, ?_,
    by with_unfolding_all decide, by with_unfolding_all decide⟩
  · intro q d p
    refine ⟨toFixedPos |q| d, ?_, bodyFixed_toFixedPos _ _⟩
    rw [formatSignedValue_fin]
    by_cases hq : 0 ≤ q
    · simp only [if_pos hq, if_neg (not_lt.mpr hq), strEmptyAppend]
    · simp only [if_neg hq, if_pos (not_le.mp hq), strEmptyAppend]
  · intro s d p h
    simp [formatSignedValue, h, jsIsNaN]

/-- Witness for C1: the non-numeric string clause at `"abc"`. -/
theorem formatSignedValue_spec_witness :
    formatSignedValue (.str "abc") 3 true = "+0.00%" :=
  formatSignedValue_spec.2.2.1 "abc" 3 true (by with_unfolding_all decide)

/-! ### Claim theorems for the performance controller (C2, C3, C9) -/

/-- Claim C2 counterexample: on a fetch rejection the alpha value slot
shows `"+0.000"` — the zero fallback at alpha's three-decimal precision —
so "all four metric value slots show `+0.00`" fails for the alpha slot. -/
theorem loadPerformance_failure_counterexample :
    (loadPerformanceDataAndRenderCharts .reject "IBM" (fun _ => true)
      (fun _ => true) initPage).dom.alpha.valueText = "+0.000"
    ∧ (loadPerformanceDataAndRenderCharts .reject "IBM" (fun _ => true)
      (fun _ => true) initPage).dom.alpha.valueText ≠ "+0.00" := by
  with_unfolding_all decide

/-- Claim C2 (amended): a rejected fetch, a non-success HTTP status, and
a truthy `error` field in the payload all make `apiData` null, so all
four metrics are treated as the zero-valued fallback
`{value:0, change:0, dates:[], values:[]}`; the call is total (every
failure is caught, no exception escapes) and the four value and change
slots show the fallback at each metric's configured precision:
`"+0.00%"` (relative performance), `"+0.00"` (z-score), `"+0.000"`
(alpha, three decimals), `"+0.00"` (cumulative alpha). -/
theorem loadPerformance_failure_spec :
    tryFetchPerf .reject = none
    ∧ (∀ p : PerfPayload, tryFetchPerf (.response false p) = none)
    ∧ (∀ p : PerfPayload, truthyStr p.error = true →
        tryFetchPerf (.response true p) = none)
    ∧ (∀ (fetch : PerfFetchResult) (ticker : String)
        (cOk bOk : String → Bool) (st : PageState),
        tryFetchPerf fetch = none →
        (loadPerformanceDataAndRenderCharts fetch ticker cOk bOk
            st).dom.rp.valueText = "+0.00%"
        ∧ (loadPerformanceDataAndRenderCharts fetch ticker cOk bOk
            st).dom.rp.changeText = "+0.00%"
        ∧ (loadPerformanceDataAndRenderCharts fetch ticker cOk bOk
            st).dom.zscore.valueText = "+0.00"
        ∧ (loadPerformanceDataAndRenderCharts fetch ticker cOk bOk
            st).dom.zscore.changeText = "+0.00"
        ∧ (loadPerformanceDataAndRenderCharts fetch ticker cOk bOk
            st).dom.alpha.valueText = "+0.000"
        ∧ (loadPerformanceDataAndRenderCharts fetch ticker cOk bOk
            st).dom.alpha.changeText = "+0.000"
        ∧ (loadPerformanceDataAndRenderCharts fetch ticker cOk bOk
            st).dom.cumAlpha.valueText = "+0.00"
        ∧ (loadPerformanceDataAndRenderCharts fetch ticker cOk bOk
            st).dom.cumAlpha.changeText = "+0.00") := by
  refine ⟨rfl, fun p => rfl, fun p hp => by simp [tryFetchPerf, hp], ?_⟩
  intro fetch ticker cOk bOk st h
  have key : loadPerformanceDataAndRenderCharts fetch ticker cOk bOk st
      = loadPerformanceDataAndRenderCharts .reject ticker cOk bOk st := by
    unfold loadPerformanceDataAndRenderCharts
    rw [h]
    rfl
  rw [key]
  refine ⟨?_, ?_, ?_, ?_, ?_, ?_, ?_, ?_⟩
  · show jsTrim (formatSignedValue (.num (.fin 0)) 2 true) = "+0.00%"
    with_unfolding_all decide
  · show jsTrim (formatSignedValue (.num (.fin 0)) 2 true) = "+0.00%"
    with_unfolding_all decide
  · show jsTrim (formatSignedValue (.num (.fin 0)) 2 false) = "+0.00"
    with_unfolding_all decide
  · show jsTrim (formatSignedValue (.num (.fin 0)) 2 false) = "+0.00"
    with_unfolding_all decide
  · show jsTrim (formatSignedValue (.num (.fin 0)) 3 false) = "+0.000"
    with_unfolding_all decide
  · show jsTrim (formatSignedValue (.num (.fin 0)) 3 false) = "+0.000"
    with_unfolding_all decide
  · show jsTrim (formatSignedValue (.num (.fin 0)) 2 false) = "+0.00"
    with_unfolding_all decide
  · show jsTrim (formatSignedValue (.num (.fin 0)) 2 false) = "+0.00"
    with_unfolding_all decide

/-- Witness for C2 at a concrete non-success HTTP response. -/
theorem loadPerformance_failure_spec_witness :
    (loadPerformanceDataAndRenderCharts
      (.response false ⟨none, none, none, none, none⟩) "AAPL"
      (fun _ => true) (fun _ => true) initPage).dom.rp.valueText
      = "+0.00%" :=
  (loadPerformance_failure_spec.2.2.2
    (.response false ⟨none, none, none, none, none⟩) "AAPL"
    (fun _ => true) (fun _ => true) initPage rfl).1

/-- Claim C3 counterexample: on the C3 payload the relative-performance
change container does not carry the class `negative` (nor lack
`positive`): the class follows the sign of the change string
`"+1.00%"`. -/
theorem relPerf_class_counterexample :
    ¬ (runC3.dom.rp.valueText = "-5.00%" ∧ runC3.dom.rp.negative = true
        ∧ runC3.dom.rp.positive = false) := by
  with_unfolding_all decide

/-- Claim C3 (amended): given the payload with
`relative_performance = {value:"-5.00%", change:"+1.00%", dates:["Jan"],
values:[-5]}`, the relative-performance value slot shows `"-5.00%"`, and
— because the change string `"+1.00%"` does not start with `'-'` — the
change slot's container carries the class `positive` and not
`negative`. -/
theorem relPerf_render_spec :
    runC3.dom.rp.valueText = "-5.00%"
    ∧ runC3.dom.rp.changeText = "+1.00%"
    ∧ runC3.dom.rp.positive = true
    ∧ runC3.dom.rp.negative = false := by
  with_unfolding_all decide

/-- Claim C9: for a successful response without a (truthy) error field,
the zero-valued fallback is applied per metric: each of the four metric
fields that is absent is independently replaced by
`{value:0, change:0, dates:[], values:[]}` (its value slot showing the
zero at that metric's precision), while each metric present in the
payload is formatted from the payload value. -/
theorem loadPerformance_per_metric_fallback (p : PerfPayload)
    (ticker : String) (cOk bOk : String → Bool) (st : PageState)
    (herr : truthyStr p.error = false) :
    (p.relative_performance = none →
      (loadPerformanceDataAndRenderCharts (.response true p) ticker cOk bOk
        st).dom.rp.valueText = "+0.00%")
    ∧ (∀ m : Metric, p.relative_performance = some m →
      (loadPerformanceDataAndRenderCharts (.response true p) ticker cOk bOk
        st).dom.rp.valueText = jsTrim (formatSignedValue m.value 2 true))
    ∧ (p.moving_z_score = none →
      (loadPerformanceDataAndRenderCharts (.response true p) ticker cOk bOk
        st).dom.zscore.valueText = "+0.00")
    ∧ (∀ m : Metric, p.moving_z_score = some m →
      (loadPerformanceDataAndRenderCharts (.response true p) ticker cOk bOk
        st).dom.zscore.valueText = jsTrim (formatSignedValue m.value 2 false))
    ∧ (p.alpha = none →
      (loadPerformanceDataAndRenderCharts (.response true p) ticker cOk bOk
        st).dom.alpha.valueText = "+0.000")
    ∧ (∀ m : Metric, p.alpha = some m →
      (loadPerformanceDataAndRenderCharts (.response true p) ticker cOk bOk
        st).dom.alpha.valueText = jsTrim (formatSignedValue m.value 3 false))
    ∧ (p.cumulative_alpha = none →
      (loadPerformanceDataAndRenderCharts (.response true p) ticker cOk bOk
        st).dom.cumAlpha.valueText = "+0.00")
    ∧ (∀ m : Metric, p.cumulative_alpha = some m →
      (loadPerformanceDataAndRenderCharts (.response true p) ticker cOk bOk
        st).dom.cumAlpha.valueText
        = jsTrim (formatSignedValue m.value 2 false)) := by
  have hfetch : tryFetchPerf (.response true p) = some p := by
    simp [tryFetchPerf, herr]
  refine ⟨?_, ?_, ?_, ?_, ?_, ?_, ?_, ?_⟩
  · intro h
    simp only [loadPerformanceDataAndRenderCharts, hfetch, Option.some_bind, h,
      Option.getD_none, updateChartCardTextOnly]
    with_unfolding_all decide
  · intro m h
    simp only [loadPerformanceDataAndRenderCharts, hfetch, Option.some_bind, h,
      Option.getD_some, updateChartCardTextOnly]
  · intro h
    simp only [loadPerformanceDataAndRenderCharts, hfetch, Option.some_bind, h,
      Option.getD_none, updateChartCardTextOnly]
    with_unfolding_all decide
  · intro m h
    simp only [loadPerformanceDataAndRenderCharts, hfetch, Option.some_bind, h,
      Option.getD_some, updateChartCardTextOnly]
  · intro h
    simp only [loadPerformanceDataAndRenderCharts, hfetch, Option.some_bind, h,
      Option.getD_none, updateChartCardTextOnly]
    with_unfolding_all decide
  · intro m h
    simp only [loadPerformanceDataAndRenderCharts, hfetch, Option.some_bind, h,
      Option.getD_some, updateChartCardTextOnly]
  · intro h
    simp only [loadPerformanceDataAndRenderCharts, hfetch, Option.some_bind, h,
      Option.getD_none, updateChartCardTextOnly]
    with_unfolding_all decide
  · intro m h
    simp only [loadPerformanceDataAndRenderCharts, hfetch, Option.some_bind, h,
      Option.getD_some, updateChartCardTextOnly]

/-- Witness for C9: the mixed C3 payload — relative performance present,
the other three metrics absent. -/
theorem loadPerformance_per_metric_fallback_witness :
    (loadPerformanceDataAndRenderCharts (.response true payloadC3) "IBM"
      (fun _ => true) (fun _ => true) initPage).dom.alpha.valueText
      = "+0.000"
    ∧ (loadPerformanceDataAndRenderCharts (.response true payloadC3) "IBM"
      (fun _ => true) (fun _ => true) initPage).dom.rp.valueText
      = jsTrim (formatSignedValue (.str "-5.00%") 2 true) := by
  have h := loadPerformance_per_metric_fallback payloadC3 "IBM"
    (fun _ => true) (fun _ => true) initPage rfl
  exact ⟨h.2.2.2.2.1 rfl, h.2.1 _ rfl⟩

end StkDash
